import Mathlib

/-!
Verification development for the wallet-portal session-bridging and
authenticated-request subsystem (`src/wallet-portal/src/api.ts` and
`src/wallet-portal/src/components/WalletSessionGate.tsx`).

The JavaScript sources are shallowly embedded: pure helpers become Lean
functions over `String`/`List`; browser primitives (`URLSearchParams`,
`fetch`, `localStorage`) are modelled at the level of abstraction the code
uses them (single-character splitting, an oracle of network responses, an
`Option String` store).  Percent-encoding of URL parameters and JSON string
escaping are not modelled: parameter names/values and JSON strings are
treated as opaque escape-free strings, which is the regime all claims live
in.  The single-threaded event-loop semantics of the refresh coordinator is
modelled as an explicit transition system over interleavings of caller
invocations and network settlements.
-/

namespace WalletPortal

/-! ## String splitting / joining primitives (JS `split`, `join`, `slice`) -/

/-- JS `String.prototype.split` with a one-character separator, on char
lists.  Always returns at least one (possibly empty) piece. -/
def splitOnChar (c : Char) : List Char → List (List Char)
  | [] => [[]]
  | x :: xs =>
    if x = c then [] :: splitOnChar c xs
    else
      match splitOnChar c xs with
      | [] => [[x]]
      | h :: t => (x :: h) :: t

/-- Join a list of strings with a separator (JS `Array.prototype.join`). -/
def joinSep (sep : String) : List String → String
  | [] => ""
  | [x] => x
  | x :: xs => x ++ sep ++ joinSep sep xs

/-- Remove a single leading occurrence of `c` (JS `replace(/^c/, "")`,
and the `hash.slice(1)` / `URLSearchParams` leading-`?` stripping). -/
def stripLeadChar (c : Char) (s : String) : String :=
  match s.data with
  | [] => s
  | x :: xs => if x = c then String.mk xs else s

/-- Whether a string starts with the character `c`. -/
def headIs (c : Char) (s : String) : Bool :=
  match s.data with
  | [] => false
  | x :: _ => x = c

/-! ## `URLSearchParams` model

An ordered multimap of `(name, value)` pairs.  `parseParams` models the
constructor (strip a leading `?`, split on `&`, drop empty pieces, split
each piece at its first `=`); `getParam` models `get` (first match),
`deleteParam` models `delete` (remove all matches), `serializeParams`
models `toString` (re-serialize in order, names and values taken as
escape-free). -/

abbrev Params := List (String × String)

/-- Split one `name=value` piece at the first `=` (a piece without `=`
gets the empty value, a value may itself contain `=`). -/
def parsePiece (piece : List Char) : String × String :=
  match splitOnChar '=' piece with
  | [] => ("", "")
  | k :: rest => (String.mk k, joinSep "=" (rest.map String.mk))

/-- `new URLSearchParams(s)`. -/
def parseParams (s : String) : Params :=
  ((splitOnChar '&' (stripLeadChar '?' s).data).filter (fun l => !l.isEmpty)).map parsePiece

/-- `params.get(k)`: value of the first pair named `k`, or null. -/
def getParam : Params → String → Option String
  | [], _ => none
  | p :: ps, k => if p.1 = k then some p.2 else getParam ps k

/-- `params.delete(k)`: remove every pair named `k`. -/
def deleteParam : Params → String → Params
  | [], _ => []
  | p :: ps, k => if p.1 = k then deleteParam ps k else p :: deleteParam ps k

/-- `params.toString()`. -/
def serializeParams (ps : Params) : String :=
  joinSep "&" (ps.map fun p => p.1 ++ "=" ++ p.2)

/-- The JS idiom `params.get(k)` used in a truthiness test: yields a value
only when it is present and a non-empty string. -/
def truthyGet (ps : Params) (k : String) : Option String :=
  match getParam ps k with
  | some v => if v = "" then none else some v
  | none => none

/-! ## Link Token Extractor (`WalletSessionGate.tsx`, `extractLinkToken`) -/

/-- `RouterLocation` from `WalletSessionGate.tsx`. -/
structure RouterLocation where
  pathname : String
  search : String
  hash : String
  deriving Repr, DecidableEq

/-- `LinkTokenData` from `WalletSessionGate.tsx`.  The source marks
`targetPathname` optional but both construction sites assign a string
(`location.pathname` is always a string), so it is a plain `String` here. -/
structure LinkTokenData where
  token : String
  cleanedSearch : String
  cleanedHash : String
  targetPathname : String
  deriving Repr, DecidableEq

/-- `normalizePath` from `WalletSessionGate.tsx`: `undefined` on the empty
string, otherwise prepend `/` when missing. -/
def normalizePath (pathname : String) : Option String :=
  if pathname = "" then none
  else if headIs '/' pathname then some pathname
  else some ("/" ++ pathname)

/-- `rawHash` of `extractLinkToken` (lines 42–44): the hash fragment with
its leading `#` removed. -/
def rawHashOf (loc : RouterLocation) : String :=
  if headIs '#' loc.hash then stripLeadChar '#' loc.hash else loc.hash

/-- The JS destructuring `const [hashPathPart, hashQueryPart = ""] =
rawHash.split("?")` (line 47): the pieces of the raw hash split on `?`. -/
def hashPartsOf (loc : RouterLocation) : List (List Char) :=
  splitOnChar '?' (rawHashOf loc).data

/-- `hashPathPart`. -/
def hashPathOf (loc : RouterLocation) : String :=
  String.mk ((hashPartsOf loc).headD [])

/-- `hashQueryPart` (text between the first and second `?`, or empty). -/
def hashQueryOf (loc : RouterLocation) : String :=
  String.mk (((hashPartsOf loc).drop 1).headD [])

/-- `cleanedHashParams` of the hash branch (lines 52–53): the hash query
re-serialized with the `token` parameter removed. -/
def cleanedHashParamsOf (loc : RouterLocation) : String :=
  serializeParams (deleteParam (parseParams (hashQueryOf loc)) "token")

/-- `cleanedHash` of the hash branch (lines 55–58). -/
def cleanedHashOf (loc : RouterLocation) : String :=
  if hashPathOf loc ≠ "" ∨ cleanedHashParamsOf loc ≠ "" then
    "#" ++ hashPathOf loc ++
      (if cleanedHashParamsOf loc ≠ "" then "?" ++ cleanedHashParamsOf loc else "")
  else ""

/-- The hash-fragment branch of `extractLinkToken` (lines 42–65): consume
a truthy `token` from the hash's query part, rebuild the cleaned hash, and
normalize the target path with fallback to the current pathname. -/
def extractFromHash (loc : RouterLocation) : Option LinkTokenData :=
  if rawHashOf loc = "" then none
  else
    match truthyGet (parseParams (hashQueryOf loc)) "token" with
    | none => none
    | some hashToken =>
      some { token := hashToken
             cleanedSearch := stripLeadChar '?' loc.search
             cleanedHash := cleanedHashOf loc
             targetPathname := (normalizePath (hashPathOf loc)).getD loc.pathname }

/-- `extractLinkToken` from `WalletSessionGate.tsx` lines 29–66, translated
clause by clause: query string first (truthy `token` wins, hash untouched);
otherwise the hash-fragment branch. -/
def extractLinkToken (loc : RouterLocation) : Option LinkTokenData :=
  match truthyGet (parseParams loc.search) "token" with
  | some searchToken =>
    some { token := searchToken
           cleanedSearch := serializeParams (deleteParam (parseParams loc.search) "token")
           cleanedHash := loc.hash
           targetPathname := loc.pathname }
  | none => extractFromHash loc

example :
    extractLinkToken { pathname := "/", search := "?token=T&x=1", hash := "" } =
      some { token := "T", cleanedSearch := "x=1", cleanedHash := "", targetPathname := "/" } := by
  decide

example :
    extractLinkToken { pathname := "/home", search := "", hash := "#/path?token=T&y=2" } =
      some { token := "T", cleanedSearch := "", cleanedHash := "#/path?y=2",
             targetPathname := "/path" } := by
  decide

example :
    extractLinkToken { pathname := "/home", search := "", hash := "#?token=T" } =
      some { token := "T", cleanedSearch := "", cleanedHash := "",
             targetPathname := "/home" } := by
  decide

example :
    extractLinkToken { pathname := "/home", search := "?token=", hash := "" } = none := by
  decide

/-! ## JSON values and JS coercions

JSON numbers are modelled as integers (no claim involves fractional
numbers) and strings as escape-free. -/

inductive Json where
  | str (s : String)
  | num (n : Int)
  | bool (b : Bool)
  | null
  | arr (elems : List Json)
  | obj (fields : List (String × Json))
  deriving Repr

/-- JS truthiness of a JSON value (`""`, `0`, `false`, `null` are falsy;
arrays and objects are always truthy). -/
def jsTruthy : Json → Bool
  | .str s => s ≠ ""
  | .num n => n ≠ 0
  | .bool b => b
  | .null => false
  | .arr _ => true
  | .obj _ => true

/-- Optional-chained field access `v?.k`: `none` is JS `undefined`
(absent field, or any access on a non-object). -/
def jsField (j : Json) (k : String) : Option Json :=
  match j with
  | .obj fields => (fields.find? (fun f => f.1 == k)).map (·.2)
  | _ => none

mutual

/-- JS string coercion `String(v)` (what `new Error(v)` and
`Array.prototype.join` apply). -/
def jsToString : Json → String
  | .str s => s
  | .num n => toString n
  | .bool b => if b then "true" else "false"
  | .null => "null"
  | .arr xs => joinSep "," (jsJoinElems xs)
  | .obj _ => "[object Object]"

/-- Elements as coerced by `join`: `null` becomes the empty string. -/
def jsJoinElems : List Json → List String
  | [] => []
  | .null :: xs => "" :: jsJoinElems xs
  | x :: xs => jsToString x :: jsJoinElems xs

end

mutual

/-- `JSON.stringify` on escape-free values. -/
def jsonStringify : Json → String
  | .str s => "\x22" ++ s ++ "\x22"
  | .num n => toString n
  | .bool b => if b then "true" else "false"
  | .null => "null"
  | .arr xs => "[" ++ joinSep "," (jsonStringifyElems xs) ++ "]"
  | .obj fs => "\x7b" ++ joinSep "," (jsonStringifyFields fs) ++ "\x7d"

def jsonStringifyElems : List Json → List String
  | [] => []
  | x :: xs => jsonStringify x :: jsonStringifyElems xs

def jsonStringifyFields : List (String × Json) → List String
  | [] => []
  | (k, v) :: fs => ("\x22" ++ k ++ "\x22:" ++ jsonStringify v) :: jsonStringifyFields fs

end

/-- First truthy value of a JS `a || b || ...` chain over possibly-absent
values (`none` = `undefined`, which is falsy). -/
def firstTruthy (vals : List (Option Json)) : Option Json :=
  vals.findSome? (fun v => v.bind (fun j => if jsTruthy j then some j else none))

/-! ## Error normalization (`api.ts`, `apiFetch` lines 90–117) -/

/-- One mapped element of the `detail` array:
`item?.msg || item?.detail || JSON.stringify(item)`. -/
def detailItemValue (item : Json) : Json :=
  match firstTruthy [jsField item "msg", jsField item "detail"] with
  | some v => v
  | none => .str (jsonStringify item)

/-- The message extraction of `apiFetch` for a non-success response:
`bodyText` is the cached body text, `parsed` the result of
`JSON.parse(bodyText)` (`none` when parsing threw).  Mirrors lines 92–116
of `api.ts`: the `detail`-array branch joins mapped items with `" • "`
falling back to the body text when the join is empty; the other branch is
the `detail || message || error || firstError || bodyText` chain; finally
`new Error(message || `Request failed (status)`)` coerces the selected
value to a string. -/
def normalizeMessage (status : Nat) (bodyText : String) (parsed : Option Json) : String :=
  let messageVal : Json :=
    match parsed with
    | none => .str bodyText
    | some p =>
      match jsField p "detail" with
      | some (.arr items) =>
        let joined := joinSep " • " (jsJoinElems (items.map detailItemValue))
        if joined ≠ "" then .str joined else .str bodyText
      | detail =>
        let errorsField := jsField p "errors"
        let firstError : Option Json :=
          match errorsField with
          | some (.arr (x :: _)) => some x
          | other => other
        match firstTruthy
            [detail, jsField p "message", jsField p "error", firstError] with
        | some v => v
        | none => .str bodyText
  if jsTruthy messageVal then jsToString messageVal
  else "Request failed (" ++ toString status ++ ")"

example :
    normalizeMessage 400 "raw"
      (some (.obj [("detail", .arr [.obj [("msg", .str "bad")], .obj [("msg", .str "worse")]])])) =
      "bad • worse" := by
  decide

example : normalizeMessage 400 "raw" (some (.obj [("error", .str "x")])) = "x" := by
  decide

example : normalizeMessage 400 "not json" none = "not json" := by
  decide

example : normalizeMessage 503 "" none = "Request failed (503)" := by
  decide

/-! ## Refresh operation body (`api.ts`, `refreshAccessToken` lines 124–147)

The network behaviour of one `POST /wallet-portal/sessions/refresh`
exchange is an oracle value; the token store is an `Option String`
(`getStoredToken` / `setStoredToken` / `clearStoredToken`). -/

/-- The possible behaviours of the refresh network exchange:
the fetch (or the success-body `res.json()`) throws, the response is
non-success, or a parsed success body whose `access_token` field is
`none` (absent) or a string. -/
inductive RefreshResponse where
  | netError
  | httpFail (status : Nat)
  | okBody (accessToken : Option String)
  deriving Repr, DecidableEq

/-- The body of the async closure in `refreshAccessToken` (lines 124–147),
one operation: returns `(result, new store)`.  Non-success responses and
success bodies with no truthy `access_token` clear the store and yield
`null`; a truthy `access_token` is stored and returned; a thrown error is
caught and yields `null` leaving the store untouched. -/
def refreshAttempt (r : RefreshResponse) (store : Option String) :
    Option String × Option String :=
  match r with
  | .netError => (none, store)
  | .httpFail _ => (none, none)
  | .okBody tok =>
    match tok with
    | some t => if t = "" then (none, none) else (some t, some t)
    | none => (none, none)

/-! ## Refresh Coordinator as a transition system (`api.ts` lines 54, 121–150)

The module-level `refreshPromise` marker and the single-threaded event
loop are modelled explicitly: an `invoke` event is a caller running the
synchronous prefix of `refreshAccessToken()` (the `if (!refreshPromise)`
check-and-set happens before any suspension point), and a `settle` event
is the in-flight network exchange completing with some outcome, running
the `finally` clause that clears the marker.  Operations are numbered so
that joining and settlement can be tracked. -/

structure CoordState where
  /-- The module-level `refreshPromise` marker: id of the in-flight
  operation, if any. -/
  refreshPromise : Option Nat
  /-- Next fresh operation id. -/
  nextOp : Nat
  /-- Number of refresh network exchanges currently outstanding. -/
  netInFlight : Nat
  /-- Total refresh network exchanges ever issued. -/
  netCalls : Nat
  /-- Which operation each caller awaits: `(caller, operation)` pairs. -/
  joined : List (Nat × Nat)
  /-- Settled operations and their outcomes. -/
  settled : List (Nat × Option String)
  deriving Repr, DecidableEq

def coordInit : CoordState :=
  { refreshPromise := none, nextOp := 0, netInFlight := 0, netCalls := 0
    joined := [], settled := [] }

inductive CoordEvent where
  | invoke (caller : Nat)
  | settle (outcome : Option String)
  deriving Repr, DecidableEq

/-- One event-loop step.  `invoke c`: caller `c` runs `refreshAccessToken`
up to its first await — if `refreshPromise` is set it simply awaits that
operation, otherwise it issues a new network exchange and publishes the
marker before yielding.  `settle o`: the outstanding exchange completes
with outcome `o` (success or failure) and the `finally` clause clears the
marker; with nothing in flight the event is a no-op. -/
def coordStep (s : CoordState) : CoordEvent → CoordState
  | .invoke c =>
    match s.refreshPromise with
    | some p => { s with joined := (c, p) :: s.joined }
    | none =>
      { s with refreshPromise := some s.nextOp
               nextOp := s.nextOp + 1
               netInFlight := s.netInFlight + 1
               netCalls := s.netCalls + 1
               joined := (c, s.nextOp) :: s.joined }
  | .settle o =>
    match s.refreshPromise with
    | some p =>
      { s with settled := (p, o) :: s.settled
               netInFlight := s.netInFlight - 1
               refreshPromise := none }
    | none => s

/-- Run a schedule of events from the initial coordinator state. -/
def coordRun (evs : List CoordEvent) : CoordState :=
  evs.foldl coordStep coordInit

/-- The outcome delivered to every caller awaiting operation `p` (what
`return refreshPromise` resolves to once the operation settles). -/
def outcomeOf (s : CoordState) (p : Nat) : Option (Option String) :=
  (s.settled.find? (fun q => q.1 == p)).map (·.2)

/-! ## Authenticated Request Client (`api.ts`, `apiFetch` lines 56–119)

The network is an oracle `Nat → Response` giving the response to the
`n`-th fetch issued by this outer call; the refresh exchange behaviour is
a `RefreshResponse` oracle.  Since the claims about `apiFetch` concern a
single outer call, the coalescing marker plays no role here (the call's
own refresh is sequential) and `refreshAccessToken` is entered through
`refreshAttempt`. -/

/-- A network response: status, body text (what `res.text()` yields, the
empty string when it throws), and the result of `JSON.parse` on that text
(`none` when parsing throws).  `okJson` duplicates `bodyJson` because a
success body is read through `res.json()` instead. -/
structure Response where
  status : Nat
  bodyText : String
  bodyJson : Option Json

/-- `res.ok`: status in the inclusive range 200–299. -/
def Response.isOk (r : Response) : Bool :=
  200 ≤ r.status && r.status ≤ 299

/-- The `Authorization` header value attached for a stored token:
present only for a truthy (non-empty) token (`if (token) headers.set(...)`). -/
def bearerHeader (store : Option String) : Option String :=
  match store with
  | some t => if t = "" then none else some t
  | none => none

/-- One issued network request as observable on the wire: path, attached
bearer token, request body. -/
structure SentRequest where
  path : String
  auth : Option String
  body : Option String
  deriving Repr, DecidableEq

/-- The `consumedBody` cache of `apiFetch` (lines 71–80) together with a
count of how many times `res.text()` actually executed. -/
structure BodyCache where
  consumedBody : Option String
  reads : Nat
  deriving Repr, DecidableEq

/-- `readBodyText` (lines 72–80): return the cached text if present,
otherwise consume the body once and cache it. -/
def readBodyText (r : Response) (c : BodyCache) : String × BodyCache :=
  match c.consumedBody with
  | some s => (s, c)
  | none => (r.bodyText, { consumedBody := some r.bodyText, reads := c.reads + 1 })

/-- Everything observable about one outer `apiFetch` call: its outcome
(`.error` carries the thrown message, `.ok` the parsed success body), the
requests issued in order, the number of refresh exchanges triggered, the
per-request count of actual body reads, and the final token store. -/
structure ApiResult where
  outcome : Except String (Option Json)
  requests : List SentRequest
  refreshes : Nat
  bodyReads : List Nat
  store : Option String

/-- `apiFetch` with `allowRefresh = false` (the instantiation used for the
retry): fetch once, bearer from the current store; a non-success response
(401 included — the refresh branch is disabled) is normalized from the
cached body text. -/
def apiFetchNoRefresh (path : String) (body : Option String) (store : Option String)
    (r : Response) : ApiResult :=
  let c0 : BodyCache := { consumedBody := none, reads := 0 }
  let sent : SentRequest := { path := path, auth := bearerHeader store, body := body }
  if r.isOk then
    { outcome := .ok r.bodyJson, requests := [sent], refreshes := 0
      bodyReads := [c0.reads], store := store }
  else
    let (bodyText, c1) := readBodyText r c0
    { outcome := .error (normalizeMessage r.status bodyText r.bodyJson)
      requests := [sent], refreshes := 0, bodyReads := [c1.reads], store := store }

/-- `apiFetch` with `allowRefresh = true` (the default, lines 56–119): on
a 401, read the body, trigger `refreshAccessToken`; when it yields a token
retry the identical request once with `allowRefresh = false`; when it
yields `null` fall through to normalization of the first response, whose
body read hits the cache. -/
def apiFetch (path : String) (body : Option String) (oracle : Nat → Response)
    (refreshR : RefreshResponse) (store : Option String) : ApiResult :=
  let r1 := oracle 0
  let c0 : BodyCache := { consumedBody := none, reads := 0 }
  let sent1 : SentRequest := { path := path, auth := bearerHeader store, body := body }
  if r1.status = 401 then
    let (_, c1) := readBodyText r1 c0
    let (refreshed, store1) := refreshAttempt refreshR store
    match refreshed with
    | some _ =>
      let inner := apiFetchNoRefresh path body store1 (oracle 1)
      { outcome := inner.outcome, requests := sent1 :: inner.requests
        refreshes := 1 + inner.refreshes, bodyReads := c1.reads :: inner.bodyReads
        store := inner.store }
    | none =>
      let (bodyText, c2) := readBodyText r1 c1
      { outcome := .error (normalizeMessage r1.status bodyText r1.bodyJson)
        requests := [sent1], refreshes := 1, bodyReads := [c2.reads], store := store1 }
  else
    apiFetchNoRefresh path body store r1

/-! ## Session Bridge (`api.ts`, `bridgeSession` lines 158–168) -/

/-- `JSON.stringify({ token: linkToken })`. -/
def bridgeBody (linkToken : String) : String :=
  jsonStringify (.obj [("token", .str linkToken)])

/-- Observable result of one `bridgeSession` call. -/
structure BridgeResult where
  outcome : Except String (Option Json)
  requests : List SentRequest
  refreshes : Nat
  store : Option String

/-- `bridgeSession` (lines 158–168): POST the link token through
`apiFetch` (with its default `allowRefresh = true`), then require a truthy
`access_token` in the response, store it, and return the response. -/
def bridgeSession (oracle : Nat → Response) (refreshR : RefreshResponse)
    (store : Option String) (linkToken : String) : BridgeResult :=
  let res := apiFetch "/wallet-portal/sessions/bridge" (some (bridgeBody linkToken))
    oracle refreshR store
  match res.outcome with
  | .error e =>
    { outcome := .error e, requests := res.requests, refreshes := res.refreshes
      store := res.store }
  | .ok j =>
    let tokVal : Option Json :=
      match j with
      | some v => jsField v "access_token"
      | none => none
    match tokVal with
    | some v =>
      if jsTruthy v then
        { outcome := .ok j, requests := res.requests, refreshes := res.refreshes
          store := some (jsToString v) }
      else
        { outcome := .error "Wallet session created without access token."
          requests := res.requests, refreshes := res.refreshes, store := res.store }
    | none =>
      { outcome := .error "Wallet session created without access token."
        requests := res.requests, refreshes := res.refreshes, store := res.store }

/-- How many times a given link token's bridge exchange body goes over the
wire in a list of issued requests. -/
def tokenSendCount (reqs : List SentRequest) (linkToken : String) : Nat :=
  (reqs.filter (fun q => q.body == some (bridgeBody linkToken))).length

/-! ## Session Gate (`WalletSessionGate.tsx`, lines 75–130) -/

inductive GateStatus where
  | checking
  | linking
  | ready
  | error
  deriving Repr, DecidableEq

/-- The fixed missing-session message (lines 72–73). -/
def NO_SESSION_MESSAGE : String :=
  "Missing wallet session. Open the portal from the SR Tech app or use a valid wallet link."

/-- The gate's state: the `status` and `error` React state, the in-memory
`sessionReady` flag, and the token store it manipulates through
`clearStoredToken`. -/
structure GateState where
  status : GateStatus
  errorMsg : Option String
  sessionReady : Bool
  store : Option String
  deriving Repr, DecidableEq

/-- A fresh mount of `WalletSessionGate` (lines 78–81): `status` starts at
`checking`, no error, and `sessionReady` starts `false` regardless of any
credential persisted in the store by a prior page load. -/
def gateMount (store : Option String) : GateState :=
  { status := .checking, errorMsg := none, sessionReady := false, store := store }

/-- The no-link-token effect (lines 120–130): when the extractor yielded
nothing, consult only the in-memory `sessionReady` flag — `true` means
`ready`; otherwise clear the token store and show the fixed
missing-session error. -/
def gateNoTokenEffect (s : GateState) : GateState :=
  if s.sessionReady then { s with status := .ready, errorMsg := none }
  else { s with store := none, errorMsg := some NO_SESSION_MESSAGE, status := .error }

/-- The bridge-success continuation (lines 93–106): mark the session
established, enter `ready` (the store was already populated by
`bridgeSession` itself). -/
def gateBridgeSuccess (s : GateState) (newStore : Option String) : GateState :=
  { s with sessionReady := true, status := .ready, store := newStore }

/-- The bridge-failure continuation (lines 108–112). -/
def gateBridgeFailure (s : GateState) (msg : String) : GateState :=
  { s with errorMsg := some msg, status := .error }

/-! ## Concrete network fixtures used in closed instances -/

/-- A 401 response with an empty body. -/
def resp401 : Response :=
  { status := 401, bodyText := "", bodyJson := none }

/-- A success response whose body carries `access_token = "xyz"`. -/
def bridgeOkResponse : Response :=
  { status := 200, bodyText := "", bodyJson := some (.obj [("access_token", .str "xyz")]) }

/-- Oracle answering 401 on the first fetch and success on the retry. -/
def bridgeRetryOracle : Nat → Response :=
  fun n => if n = 0 then resp401 else bridgeOkResponse

/-! ## Parameter-map lemmas -/

theorem getParam_deleteParam_self (ps : Params) (k : String) :
    getParam (deleteParam ps k) k = none := by
  induction ps with
  | nil => rfl
  | cons p ps ih =>
    by_cases h : p.1 = k
    · simpa [deleteParam, h] using ih
    · simpa [deleteParam, getParam, h] using ih

theorem getParam_deleteParam_ne (ps : Params) (k k2 : String) (h : k2 ≠ k) :
    getParam (deleteParam ps k) k2 = getParam ps k2 := by
  induction ps with
  | nil => rfl
  | cons p ps ih =>
    by_cases hk : p.1 = k
    · have hne : ¬ p.1 = k2 := by
        intro hc
        rw [hc] at hk
        exact h hk
      simpa [deleteParam, getParam, hk, hne, Ne.symm h] using ih
    · by_cases hk2 : p.1 = k2
      · simp [deleteParam, getParam, hk, hk2, h]
      · simpa [deleteParam, getParam, hk, hk2, h] using ih

theorem truthyGet_eq_some (ps : Params) (k t : String)
    (h1 : getParam ps k = some t) (h2 : t ≠ "") :
    truthyGet ps k = some t := by
  simp [truthyGet, h1, h2]

theorem truthyGet_none_of_empty (ps : Params) (k : String)
    (h : getParam ps k = some "") :
    truthyGet ps k = none := by
  simp [truthyGet, h]

theorem truthyGet_some_ne_empty (ps : Params) (k t : String)
    (h : truthyGet ps k = some t) : t ≠ "" := by
  unfold truthyGet at h
  cases hg : getParam ps k with
  | none => simp [hg] at h
  | some v =>
    rw [hg] at h
    by_cases hv : v = "" <;> simp [hv] at h
    exact h ▸ hv

/-! ## C7 — query-string token extraction -/

/-- C7: for every location whose query string contains a (non-empty) `token`
parameter with value `t`, the Extractor returns credential `t` — even when
the hash also carries a token, since no assumption is made on the hash —
together with the query re-serialized with the `token` parameter removed
and every other parameter kept (`token` is no longer present in the cleaned
query; every other name resolves exactly as before), the hash fragment
unmodified, and the current pathname as target. -/
theorem query_token_extraction (loc : RouterLocation) (t : String)
    (h1 : getParam (parseParams loc.search) "token" = some t) (h2 : t ≠ "") :
    extractLinkToken loc =
      some { token := t
             cleanedSearch := serializeParams (deleteParam (parseParams loc.search) "token")
             cleanedHash := loc.hash
             targetPathname := loc.pathname } ∧
    getParam (deleteParam (parseParams loc.search) "token") "token" = none ∧
    ∀ k, k ≠ "token" →
      getParam (deleteParam (parseParams loc.search) "token") k =
        getParam (parseParams loc.search) k := by
  refine ⟨?_, getParam_deleteParam_self _ _, fun k hk => getParam_deleteParam_ne _ _ _ hk⟩
  unfold extractLinkToken
  rw [truthyGet_eq_some _ _ _ h1 h2]

theorem query_token_extraction_witness :
    getParam (parseParams "?token=T&x=1") "token" = some "T" ∧
    extractLinkToken { pathname := "/", search := "?token=T&x=1", hash := "#a?token=H" } =
      some { token := "T"
             cleanedSearch :=
               serializeParams (deleteParam (parseParams "?token=T&x=1") "token")
             cleanedHash := "#a?token=H"
             targetPathname := "/" } ∧
    serializeParams (deleteParam (parseParams "?token=T&x=1") "token") = "x=1" :=
  ⟨by decide,
   (query_token_extraction
      { pathname := "/", search := "?token=T&x=1", hash := "#a?token=H" } "T"
      (by decide) (by decide)).1,
   by decide⟩

/-! ## C10 — an empty token value is treated as absent -/

/-- C10: the Extractor yields a credential only for a non-empty token
value: every extracted record has a non-empty token; a `token` parameter
present in the query with the empty-string value is skipped (extraction
proceeds exactly as the hash-fragment branch); and a `token` parameter
present in the hash's query part with the empty-string value makes the
hash branch yield nothing. -/
theorem empty_token_treated_absent (loc : RouterLocation) :
    (∀ d, extractLinkToken loc = some d → d.token ≠ "") ∧
    (getParam (parseParams loc.search) "token" = some "" →
      extractLinkToken loc = extractFromHash loc) ∧
    (getParam (parseParams (hashQueryOf loc)) "token" = some "" →
      extractFromHash loc = none) := by
  refine ⟨?_, ?_, ?_⟩
  · intro d hd
    unfold extractLinkToken at hd
    cases hq : truthyGet (parseParams loc.search) "token" with
    | some t =>
      rw [hq] at hd
      have ht := truthyGet_some_ne_empty _ _ _ hq
      cases hd
      simpa using ht
    | none =>
      rw [hq] at hd
      unfold extractFromHash at hd
      by_cases hr : rawHashOf loc = ""
      · simp [hr] at hd
      · rw [if_neg hr] at hd
        cases hh : truthyGet (parseParams (hashQueryOf loc)) "token" with
        | none => simp [hh] at hd
        | some t =>
          simp only [hh] at hd
          have ht := truthyGet_some_ne_empty _ _ _ hh
          cases hd
          simpa using ht
  · intro h
    unfold extractLinkToken
    rw [truthyGet_none_of_empty _ _ h]
  · intro h
    unfold extractFromHash
    by_cases hr : rawHashOf loc = ""
    · simp [hr]
    · rw [if_neg hr, truthyGet_none_of_empty _ _ h]

/-! ## C8 — hash-fragment token extraction -/

theorem hashQueryOf_of_rawHash_empty (loc : RouterLocation)
    (h : rawHashOf loc = "") : hashQueryOf loc = "" := by
  simp [hashQueryOf, hashPartsOf, h, splitOnChar]

/-- The cleaned hash produced by the hash branch, case-split the way the
spec phrases it: `#<path>?<remaining>` when parameters remain,
`#<path>` when the remaining query is empty, and the empty string when
both the path and the remaining query are empty. -/
theorem cleanedHash_cases (loc : RouterLocation) :
    cleanedHashOf loc =
      (if hashPathOf loc = "" ∧ cleanedHashParamsOf loc = "" then ""
       else if cleanedHashParamsOf loc = "" then "#" ++ hashPathOf loc
       else "#" ++ hashPathOf loc ++ "?" ++ cleanedHashParamsOf loc) := by
  unfold cleanedHashOf
  by_cases hp : hashPathOf loc = "" <;> by_cases hq : cleanedHashParamsOf loc = "" <;>
    simp [hp, hq]
  · rw [← String.append_assoc]
    rfl
  · simp [← String.append_assoc]

/-- The target path produced by the hash branch, case-split the way the
spec phrases it: the hash's path prefixed with `/` when missing, falling
back to the current pathname when the hash carried no path. -/
theorem targetPath_cases (loc : RouterLocation) :
    (normalizePath (hashPathOf loc)).getD loc.pathname =
      (if hashPathOf loc = "" then loc.pathname
       else if headIs '/' (hashPathOf loc) then hashPathOf loc
       else "/" ++ hashPathOf loc) := by
  unfold normalizePath
  by_cases hp : hashPathOf loc = "" <;> by_cases hs : headIs '/' (hashPathOf loc) <;>
    simp [hp, hs]

/-- C8 counterexample: for the location with hash `#?token=T` (a hash
query carrying a token but no path, which then has no remaining
parameters), the claim's rebuild rule `#<path>` would give the cleaned
hash `"#"`, but the code produces the empty string. -/
theorem hash_token_counterexample :
    (extractLinkToken { pathname := "/home", search := "", hash := "#?token=T" }).map
        (fun d => d.cleanedHash) = some "" ∧
    (extractLinkToken { pathname := "/home", search := "", hash := "#?token=T" }).map
        (fun d => d.cleanedHash) ≠ some "#" := by
  decide

/-- C8 (amended): whenever the query string carries no usable token and
the hash's query part carries token `t ≠ ""`, the Extractor returns `t`,
the cleaned hash rebuilt as `#<path>?<remaining-query>` when other
parameters remain, `#<path>` when the query becomes empty — and the empty
string when the path and the remaining query are both empty — and the
target path equal to the hash path prefixed with `/` when missing,
falling back to the current pathname when the hash carried no path.  The
remaining hash query keeps every non-`token` parameter and no `token`. -/
theorem hash_token_extraction (loc : RouterLocation) (t : String)
    (hq : truthyGet (parseParams loc.search) "token" = none)
    (hh : truthyGet (parseParams (hashQueryOf loc)) "token" = some t) :
    extractLinkToken loc =
      some { token := t
             cleanedSearch := stripLeadChar '?' loc.search
             cleanedHash :=
               (if hashPathOf loc = "" ∧ cleanedHashParamsOf loc = "" then ""
                else if cleanedHashParamsOf loc = "" then "#" ++ hashPathOf loc
                else "#" ++ hashPathOf loc ++ "?" ++ cleanedHashParamsOf loc)
             targetPathname :=
               (if hashPathOf loc = "" then loc.pathname
                else if headIs '/' (hashPathOf loc) then hashPathOf loc
                else "/" ++ hashPathOf loc) } ∧
    getParam (deleteParam (parseParams (hashQueryOf loc)) "token") "token" = none ∧
    ∀ k, k ≠ "token" →
      getParam (deleteParam (parseParams (hashQueryOf loc)) "token") k =
        getParam (parseParams (hashQueryOf loc)) k := by
  refine ⟨?_, getParam_deleteParam_self _ _, fun k hk => getParam_deleteParam_ne _ _ _ hk⟩
  have hr : rawHashOf loc ≠ "" := by
    intro hr0
    rw [hashQueryOf_of_rawHash_empty loc hr0] at hh
    have h0 : truthyGet (parseParams "") "token" = none := by decide
    rw [h0] at hh
    simp at hh
  unfold extractLinkToken
  rw [hq]
  unfold extractFromHash
  rw [if_neg hr, hh]
  simp only [cleanedHash_cases, targetPath_cases]

theorem hash_token_extraction_witness :
    truthyGet (parseParams "") "token" = none ∧
    truthyGet
      (parseParams
        (hashQueryOf { pathname := "/home", search := "", hash := "#/path?token=T&y=2" }))
      "token" = some "T" ∧
    extractLinkToken { pathname := "/home", search := "", hash := "#/path?token=T&y=2" } =
      some { token := "T", cleanedSearch := "", cleanedHash := "#/path?y=2",
             targetPathname := "/path" } := by
  refine ⟨by decide, by decide, ?_⟩
  have h := (hash_token_extraction
    { pathname := "/home", search := "", hash := "#/path?token=T&y=2" } "T"
    (by decide) (by decide)).1
  rw [h]
  decide

/-! ## C6 — Session Gate with no extracted credential -/

/-- C6 counterexample: on a fresh mount (as after a new page load) with a
credential still persisted in the Token Store and no link token in the
URL, the gate enters `error` with the fixed missing-session message and
clears the store — it does not enter `ready` as the claim requires for a
pre-existing stored session. -/
theorem gate_stored_session_counterexample :
    (gateNoTokenEffect (gateMount (some "xyz"))).status ≠ GateStatus.ready ∧
    (gateNoTokenEffect (gateMount (some "xyz"))).status = GateStatus.error ∧
    (gateNoTokenEffect (gateMount (some "xyz"))).errorMsg = some NO_SESSION_MESSAGE ∧
    (gateNoTokenEffect (gateMount (some "xyz"))).store = none := by
  decide

/-- C6 (amended): when the Extractor yields nothing, the gate consults
only the in-memory `sessionReady` flag — set by a successful bridge during
the current mount and `false` on every fresh mount regardless of the
persisted store.  If the flag is set the gate enters `ready` leaving the
store alone; otherwise — even when a stored credential from a prior page
load exists — it clears the Token Store and enters `error` with the fixed
missing-session message.  The resulting status never depends on the store
contents. -/
theorem gate_no_token (s : GateState) :
    (s.sessionReady = true →
      (gateNoTokenEffect s).status = GateStatus.ready ∧
      (gateNoTokenEffect s).errorMsg = none ∧
      (gateNoTokenEffect s).store = s.store) ∧
    (s.sessionReady = false →
      (gateNoTokenEffect s).status = GateStatus.error ∧
      (gateNoTokenEffect s).errorMsg = some NO_SESSION_MESSAGE ∧
      (gateNoTokenEffect s).store = none) ∧
    (∀ st, (gateNoTokenEffect { s with store := st }).status = (gateNoTokenEffect s).status) ∧
    (∀ st, (gateMount st).sessionReady = false) ∧
    (∀ ns, (gateBridgeSuccess s ns).sessionReady = true) := by
  refine ⟨fun h => ?_, fun h => ?_, fun st => ?_, fun st => rfl, fun ns => rfl⟩
  · simp [gateNoTokenEffect, h]
  · simp [gateNoTokenEffect, h]
  · by_cases h : s.sessionReady <;> simp [gateNoTokenEffect, h]

theorem gate_no_token_witness :
    (gateMount (some "stored")).sessionReady = false ∧
    (gateNoTokenEffect (gateMount (some "stored"))).status = GateStatus.error ∧
    (gateNoTokenEffect (gateMount (some "stored"))).errorMsg = some NO_SESSION_MESSAGE ∧
    (gateNoTokenEffect (gateMount (some "stored"))).store = none :=
  ⟨by decide, (gate_no_token (gateMount (some "stored"))).2.1 (by decide)⟩

/-! ## C3 — refresh outcomes and the token store -/

/-- C3 counterexample: when the refresh fetch throws (network error), the
code returns `null` but leaves the Token Store untouched — the claim
requires the store to be cleared on every failure. -/
theorem refresh_netError_counterexample :
    refreshAttempt RefreshResponse.netError (some "tok") = (none, some "tok") ∧
    (refreshAttempt RefreshResponse.netError (some "tok")).2 ≠ none := by
  decide

/-- C3 (amended): on a success response with a non-empty `access_token`
the token is stored and returned; on a non-success response, or on a
success response whose `access_token` is absent or empty, the store is
cleared and `null` is returned; on a network error (the fetch or the body
parse throws) `null` is returned but the store is left unchanged. -/
theorem refresh_outcomes (store : Option String) (status : Nat) (t : String) :
    (t ≠ "" → refreshAttempt (.okBody (some t)) store = (some t, some t)) ∧
    refreshAttempt (.httpFail status) store = (none, none) ∧
    refreshAttempt (.okBody none) store = (none, none) ∧
    refreshAttempt (.okBody (some "")) store = (none, none) ∧
    refreshAttempt .netError store = (none, store) :=
  ⟨fun h => by simp [refreshAttempt, h], rfl, rfl, rfl, rfl⟩

theorem refresh_outcomes_witness :
    ("new" : String) ≠ "" ∧
    refreshAttempt (.okBody (some "new")) (some "old") = (some "new", some "new") :=
  ⟨by decide, (refresh_outcomes (some "old") 500 "new").1 (by decide)⟩

/-! ## Request-client characterization lemmas -/

theorem bearerHeader_some (t : String) (h : t ≠ "") :
    bearerHeader (some t) = some t := by
  simp [bearerHeader, h]

theorem refreshAttempt_some_spec (r : RefreshResponse) (store : Option String) (t : String)
    (h : (refreshAttempt r store).1 = some t) :
    (refreshAttempt r store).2 = some t ∧ t ≠ "" := by
  cases r with
  | netError => simp [refreshAttempt] at h
  | httpFail s => simp [refreshAttempt] at h
  | okBody tok =>
    cases tok with
    | none => simp [refreshAttempt] at h
    | some u =>
      by_cases hu : u = ""
      · simp [refreshAttempt, hu] at h
      · simp [refreshAttempt, hu] at h
        subst h
        exact ⟨by simp [refreshAttempt, hu], hu⟩

theorem apiFetchNoRefresh_spec (path : String) (body : Option String)
    (store : Option String) (r : Response) :
    (apiFetchNoRefresh path body store r).requests =
      [{ path := path, auth := bearerHeader store, body := body }] ∧
    (apiFetchNoRefresh path body store r).refreshes = 0 ∧
    (r.isOk = false →
      (apiFetchNoRefresh path body store r).outcome =
        Except.error (normalizeMessage r.status r.bodyText r.bodyJson)) := by
  by_cases hok : r.isOk <;> simp [apiFetchNoRefresh, readBodyText, hok]

theorem apiFetch_of_not401 (path : String) (body : Option String)
    (oracle : Nat → Response) (refreshR : RefreshResponse) (store : Option String)
    (h : ¬ (oracle 0).status = 401) :
    apiFetch path body oracle refreshR store =
      apiFetchNoRefresh path body store (oracle 0) := by
  simp [apiFetch, h]

theorem apiFetch_of_401_refreshed (path : String) (body : Option String)
    (oracle : Nat → Response) (refreshR : RefreshResponse) (store st1 : Option String)
    (t : String) (h401 : (oracle 0).status = 401)
    (hre : refreshAttempt refreshR store = (some t, st1)) :
    apiFetch path body oracle refreshR store =
      { outcome := (apiFetchNoRefresh path body st1 (oracle 1)).outcome
        requests := { path := path, auth := bearerHeader store, body := body } ::
          (apiFetchNoRefresh path body st1 (oracle 1)).requests
        refreshes := 1
        bodyReads := 1 :: (apiFetchNoRefresh path body st1 (oracle 1)).bodyReads
        store := (apiFetchNoRefresh path body st1 (oracle 1)).store } := by
  simp [apiFetch, h401, hre, readBodyText, (apiFetchNoRefresh_spec path body st1 (oracle 1)).2.1]

theorem apiFetch_of_401_norefresh (path : String) (body : Option String)
    (oracle : Nat → Response) (refreshR : RefreshResponse) (store st1 : Option String)
    (h401 : (oracle 0).status = 401)
    (hre : refreshAttempt refreshR store = (none, st1)) :
    apiFetch path body oracle refreshR store =
      { outcome := Except.error
          (normalizeMessage 401 (oracle 0).bodyText (oracle 0).bodyJson)
        requests := [{ path := path, auth := bearerHeader store, body := body }]
        refreshes := 1
        bodyReads := [1]
        store := st1 } := by
  simp [apiFetch, h401, hre, readBodyText]

/-! ## C9 — the response body is read at most once -/

/-- C9: for every outer `apiFetch` call — whichever of the 401-refresh,
retry, and normalization branches run — each issued request's body is
consumed at most once (`all (· ≤ 1)` over the per-request counts of actual
`res.text()` executions); and a repeated `readBodyText` on the same
response returns the cached text and the cache unchanged. -/
theorem body_read_at_most_once (path : String) (body : Option String)
    (oracle : Nat → Response) (refreshR : RefreshResponse) (store : Option String)
    (r : Response) (c : BodyCache) :
    (apiFetch path body oracle refreshR store).bodyReads.all (fun n => n ≤ 1) = true ∧
    readBodyText r (readBodyText r c).2 = ((readBodyText r c).1, (readBodyText r c).2) := by
  constructor
  · by_cases h1 : (oracle 0).status = 401
    · rcases hre : refreshAttempt refreshR store with ⟨refreshed, store1⟩
      cases refreshed with
      | some t =>
        rw [apiFetch_of_401_refreshed path body oracle refreshR store store1 t h1 hre]
        by_cases hok : (oracle 1).isOk <;>
          simp [apiFetchNoRefresh, readBodyText, hok]
      | none =>
        rw [apiFetch_of_401_norefresh path body oracle refreshR store store1 h1 hre]
        simp
    · rw [apiFetch_of_not401 path body oracle refreshR store h1]
      by_cases hok : (oracle 0).isOk <;> simp [apiFetchNoRefresh, readBodyText, hok]
  · cases hc : c.consumedBody <;> simp [readBodyText, hc]

/-! ## C2 — retry-once on 401 -/

/-- C2: for every outer call whose first response is a 401, exactly one
refresh is triggered and at most two requests are issued.  When the
refresh yields a token, the identical request (same path and body) is
retried exactly once carrying the new credential, and a non-success retry
response — a second 401 included — surfaces as that second response's
normalized error with no further refresh; when the refresh yields `null`,
no retry happens and the first response's normalized error surfaces. -/
theorem retry_once_on_401 (path : String) (body : Option String)
    (oracle : Nat → Response) (refreshR : RefreshResponse) (store : Option String)
    (h401 : (oracle 0).status = 401) :
    (apiFetch path body oracle refreshR store).refreshes = 1 ∧
    (apiFetch path body oracle refreshR store).requests.length ≤ 2 ∧
    (∀ t, (refreshAttempt refreshR store).1 = some t →
      (apiFetch path body oracle refreshR store).requests =
        [{ path := path, auth := bearerHeader store, body := body },
         { path := path, auth := some t, body := body }] ∧
      ((oracle 1).isOk = false →
        (apiFetch path body oracle refreshR store).outcome =
          Except.error
            (normalizeMessage (oracle 1).status (oracle 1).bodyText (oracle 1).bodyJson))) ∧
    ((refreshAttempt refreshR store).1 = none →
      (apiFetch path body oracle refreshR store).requests =
        [{ path := path, auth := bearerHeader store, body := body }] ∧
      (apiFetch path body oracle refreshR store).outcome =
        Except.error (normalizeMessage 401 (oracle 0).bodyText (oracle 0).bodyJson)) := by
  rcases hre : refreshAttempt refreshR store with ⟨refreshed, store1⟩
  cases refreshed with
  | some t0 =>
    have hfst : (refreshAttempt refreshR store).1 = some t0 := by rw [hre]
    have hspec := refreshAttempt_some_spec refreshR store t0 hfst
    have hst : store1 = some t0 := by
      have h2 := hspec.1
      rw [hre] at h2
      exact h2
    subst hst
    rw [apiFetch_of_401_refreshed path body oracle refreshR store (some t0) t0 h401 hre]
    have hnr := apiFetchNoRefresh_spec path body (some t0) (oracle 1)
    refine ⟨by simp, by simp [hnr.1], fun t ht => ?_, fun hn => ?_⟩
    · simp at ht
      subst ht
      refine ⟨by simp [hnr.1, bearerHeader_some t0 hspec.2], fun hok => ?_⟩
      simp [hnr.2.2 hok]
    · simp at hn
  | none =>
    rw [apiFetch_of_401_norefresh path body oracle refreshR store store1 h401 hre]
    refine ⟨by simp, by simp, fun t ht => ?_, fun _ => ⟨by simp, by simp⟩⟩
    simp at ht

theorem retry_once_on_401_witness :
    ((fun n => if n = 0 then { status := 401, bodyText := "expired", bodyJson := none }
               else { status := 401, bodyText := "nope", bodyJson := none } :
        Nat → Response) 0).status = 401 ∧
    (refreshAttempt (.okBody (some "fresh")) none).1 = some "fresh" ∧
    (apiFetch "/x" none
        (fun n => if n = 0 then { status := 401, bodyText := "expired", bodyJson := none }
                  else { status := 401, bodyText := "nope", bodyJson := none })
        (.okBody (some "fresh")) none).refreshes = 1 ∧
    (apiFetch "/x" none
        (fun n => if n = 0 then { status := 401, bodyText := "expired", bodyJson := none }
                  else { status := 401, bodyText := "nope", bodyJson := none })
        (.okBody (some "fresh")) none).requests =
      [{ path := "/x", auth := none, body := none },
       { path := "/x", auth := some "fresh", body := none }] ∧
    (apiFetch "/x" none
        (fun n => if n = 0 then { status := 401, bodyText := "expired", bodyJson := none }
                  else { status := 401, bodyText := "nope", bodyJson := none })
        (.okBody (some "fresh")) none).outcome = Except.error "nope" := by
  have h := retry_once_on_401 "/x" none
    (fun n => if n = 0 then { status := 401, bodyText := "expired", bodyJson := none }
              else { status := 401, bodyText := "nope", bodyJson := none })
    (.okBody (some "fresh")) none (by decide)
  have h2 := h.2.2.1 "fresh" (by decide)
  refine ⟨by decide, by decide, h.1, h2.1, ?_⟩
  rw [h2.2 (by decide)]
  rfl

/-! ## C5 — how often a link token goes over the wire -/

theorem bridgeSession_requests (oracle : Nat → Response) (refreshR : RefreshResponse)
    (store : Option String) (tok : String) :
    (bridgeSession oracle refreshR store tok).requests =
      (apiFetch "/wallet-portal/sessions/bridge" (some (bridgeBody tok))
        oracle refreshR store).requests := by
  simp only [bridgeSession]
  cases h : (apiFetch "/wallet-portal/sessions/bridge" (some (bridgeBody tok))
      oracle refreshR store).outcome with
  | error e => simp [h]
  | ok j =>
    simp only [h]
    cases j with
    | none => simp
    | some v =>
      cases hf : jsField v "access_token" with
      | none => simp [hf]
      | some w => by_cases hw : jsTruthy w <;> simp [hf, hw]

/-- C5 counterexample: when the bridge exchange itself answers 401 and the
refresh then succeeds, `apiFetch`'s retry re-sends the identical bridge
request — the same link token value goes over the wire twice, refuting
"never issued a second time with the same value". -/
theorem bridge_token_resend_counterexample :
    ¬ (tokenSendCount
        (bridgeSession bridgeRetryOracle (.okBody (some "new")) none "LINK").requests
        "LINK" ≤ 1) ∧
    tokenSendCount
        (bridgeSession bridgeRetryOracle (.okBody (some "new")) none "LINK").requests
        "LINK" = 2 := by
  constructor
  · decide
  · decide

/-- C5 (amended): for every extracted link credential, the bridge exchange
request carrying its value is issued at most twice, and exactly once
unless the bridge response itself is a 401 and the refresh yields a new
credential — in exactly that case (and no other) the identical request
(same token value) is re-issued exactly once, for a total of two sends. -/
theorem bridge_token_sends (oracle : Nat → Response) (refreshR : RefreshResponse)
    (store : Option String) (tok : String) :
    tokenSendCount (bridgeSession oracle refreshR store tok).requests tok ≤ 2 ∧
    (tokenSendCount (bridgeSession oracle refreshR store tok).requests tok = 2 →
      (oracle 0).status = 401 ∧ (refreshAttempt refreshR store).1.isSome = true) ∧
    ((oracle 0).status ≠ 401 →
      tokenSendCount (bridgeSession oracle refreshR store tok).requests tok = 1) ∧
    ((refreshAttempt refreshR store).1 = none →
      tokenSendCount (bridgeSession oracle refreshR store tok).requests tok = 1) ∧
    ((oracle 0).status = 401 → (refreshAttempt refreshR store).1.isSome = true →
      tokenSendCount (bridgeSession oracle refreshR store tok).requests tok = 2) := by
  have hreq := bridgeSession_requests oracle refreshR store tok
  by_cases h401 : (oracle 0).status = 401
  · rcases hre : refreshAttempt refreshR store with ⟨refreshed, store1⟩
    cases refreshed with
    | some t =>
      rw [hreq, apiFetch_of_401_refreshed _ _ _ _ _ _ _ h401 hre]
      have hnr := (apiFetchNoRefresh_spec "/wallet-portal/sessions/bridge"
        (some (bridgeBody tok)) store1 (oracle 1)).1
      refine ⟨?_, fun _ => ⟨h401, by simp⟩, fun hn => absurd h401 hn, fun hn => by simp at hn,
        fun _ _ => ?_⟩
      · simp [tokenSendCount, hnr]
      · simp [tokenSendCount, hnr]
    | none =>
      rw [hreq, apiFetch_of_401_norefresh _ _ _ _ _ _ h401 hre]
      refine ⟨by simp [tokenSendCount], fun h2 => ?_, fun hn => absurd h401 hn,
        fun _ => by simp [tokenSendCount], fun _ hsome => by simp at hsome⟩
      simp [tokenSendCount] at h2
  · rw [hreq, apiFetch_of_not401 _ _ _ _ _ h401]
    have hnr := (apiFetchNoRefresh_spec "/wallet-portal/sessions/bridge"
      (some (bridgeBody tok)) store (oracle 0)).1
    refine ⟨by simp [tokenSendCount, hnr], fun h2 => ?_, fun _ => by simp [tokenSendCount, hnr],
      fun _ => by simp [tokenSendCount, hnr], fun h _ => absurd h h401⟩
    simp [tokenSendCount, hnr] at h2

theorem bridge_token_sends_witness :
    ((fun _ => bridgeOkResponse : Nat → Response) 0).status ≠ 401 ∧
    tokenSendCount
      (bridgeSession (fun _ => bridgeOkResponse)
        (.okBody (some "new")) none "LINK").requests "LINK" = 1 ∧
    (bridgeRetryOracle 0).status = 401 ∧
    (refreshAttempt (.okBody (some "new")) none).1.isSome = true ∧
    tokenSendCount
      (bridgeSession bridgeRetryOracle
        (.okBody (some "new")) none "LINK").requests "LINK" = 2 :=
  ⟨by decide,
   (bridge_token_sends (fun _ => bridgeOkResponse)
     (.okBody (some "new")) none "LINK").2.2.1 (by decide),
   by decide, by decide,
   (bridge_token_sends bridgeRetryOracle
     (.okBody (some "new")) none "LINK").2.2.2.2 (by decide) (by decide)⟩

theorem empty_token_treated_absent_witness :
    getParam (parseParams "?token=&x=1") "token" = some "" ∧
    getParam
      (parseParams (hashQueryOf { pathname := "/", search := "?token=&x=1", hash := "#/p?token=" }))
      "token" = some "" ∧
    extractLinkToken { pathname := "/", search := "?token=&x=1", hash := "#/p?token=" } = none := by
  refine ⟨by decide, by decide, ?_⟩
  have h := empty_token_treated_absent
    { pathname := "/", search := "?token=&x=1", hash := "#/p?token=" }
  exact (h.2.1 (by decide)).trans (h.2.2 (by decide))

/-! ## C4 — error-message extraction priority -/

theorem jsTruthy_str_of_ne (s : String) (h : s ≠ "") : jsTruthy (.str s) = true := by
  simp [jsTruthy, h]

theorem firstTruthy_cons_some (j : Json) (rest : List (Option Json))
    (h : jsTruthy j = true) : firstTruthy (some j :: rest) = some j := by
  simp [firstTruthy, h]

theorem firstTruthy_cons_none (rest : List (Option Json)) :
    firstTruthy (none :: rest) = firstTruthy rest := by
  simp [firstTruthy]

theorem detailItemValue_msg (s : String) (h : s ≠ "") :
    detailItemValue (.obj [("msg", .str s)]) = .str s := by
  simp [detailItemValue, jsField, firstTruthy, jsTruthy, h]

theorem jsJoinElems_of_msgs (ms : List String) (h : ∀ s ∈ ms, s ≠ "") :
    jsJoinElems ((ms.map fun s => Json.obj [("msg", .str s)]).map detailItemValue) = ms := by
  induction ms with
  | nil => rfl
  | cons a as ih =>
    have ha : a ≠ "" := h a (by simp)
    rw [List.map_cons, List.map_cons, detailItemValue_msg a ha]
    have : jsJoinElems (Json.str a :: (as.map fun s => Json.obj [("msg", .str s)]).map detailItemValue)
        = jsToString (.str a) :: jsJoinElems ((as.map fun s => Json.obj [("msg", .str s)]).map detailItemValue) := by
      rfl
    rw [this, ih (fun s hs => h s (by simp [hs]))]
    rfl

theorem joinSep_ne_empty (sep a : String) (as : List String) (ha : a ≠ "") :
    joinSep sep (a :: as) ≠ "" := by
  cases as with
  | nil => simpa [joinSep] using ha
  | cons b bs =>
    show a ++ sep ++ joinSep sep (b :: bs) ≠ ""
    intro hcontra
    apply ha
    apply String.ext
    have hdata : (a ++ sep ++ joinSep sep (b :: bs)).data = [] := by
      rw [hcontra]
    simp only [String.data_append, List.append_eq_nil] at hdata
    simpa using hdata.1.1

/-- C4: the message extracted from a parsed non-success body follows the
claimed priority: a `detail` array of sub-errors joins their `msg` texts
with `" • "`; a non-array `detail` value is used directly; then `message`,
then `error`, then the first element of an `errors` array; with none of
these, the raw body text; and the generic `Request failed (N)` fallback
exactly when the body text is empty (also when the body is unparsable). -/
theorem error_message_priority (status : Nat) (bodyText : String) (p : Json)
    (ms : List String) (rest : List Json) (d m e x : String) :
    (jsField p "detail" = some (.arr (ms.map fun s => .obj [("msg", .str s)])) →
      ms ≠ [] → (∀ s ∈ ms, s ≠ "") →
      normalizeMessage status bodyText (some p) = joinSep " • " ms) ∧
    (jsField p "detail" = some (.str d) → d ≠ "" →
      normalizeMessage status bodyText (some p) = d) ∧
    (jsField p "detail" = none → jsField p "message" = some (.str m) → m ≠ "" →
      normalizeMessage status bodyText (some p) = m) ∧
    (jsField p "detail" = none → jsField p "message" = none →
      jsField p "error" = some (.str e) → e ≠ "" →
      normalizeMessage status bodyText (some p) = e) ∧
    (jsField p "detail" = none → jsField p "message" = none → jsField p "error" = none →
      jsField p "errors" = some (.arr (.str x :: rest)) → x ≠ "" →
      normalizeMessage status bodyText (some p) = x) ∧
    (jsField p "detail" = none → jsField p "message" = none → jsField p "error" = none →
      jsField p "errors" = none →
      normalizeMessage status bodyText (some p) =
        (if bodyText = "" then "Request failed (" ++ toString status ++ ")" else bodyText)) ∧
    (normalizeMessage status bodyText none =
      (if bodyText = "" then "Request failed (" ++ toString status ++ ")" else bodyText)) := by
  refine ⟨?_, ?_, ?_, ?_, ?_, ?_, ?_⟩
  · intro hd hms hall
    obtain ⟨a, as, rfl⟩ : ∃ a as, ms = a :: as := by
      cases ms with
      | nil => exact absurd rfl hms
      | cons a as => exact ⟨a, as, rfl⟩
    have hne := joinSep_ne_empty " • " a as (hall a (by simp))
    simp only [normalizeMessage, hd, jsJoinElems_of_msgs _ hall]
    simp [hne, jsTruthy_str_of_ne _ hne, jsToString]
  · intro hd hdne
    simp only [normalizeMessage, hd]
    simp [firstTruthy_cons_some _ _ (jsTruthy_str_of_ne d hdne), jsToString,
      jsTruthy_str_of_ne d hdne]
  · intro hd hm hmne
    simp only [normalizeMessage, hd, hm]
    simp [firstTruthy_cons_none, firstTruthy_cons_some _ _ (jsTruthy_str_of_ne m hmne),
      jsToString, jsTruthy_str_of_ne m hmne]
  · intro hd hm he hene
    simp only [normalizeMessage, hd, hm, he]
    simp [firstTruthy_cons_none, firstTruthy_cons_some _ _ (jsTruthy_str_of_ne e hene),
      jsToString, jsTruthy_str_of_ne e hene]
  · intro hd hm he hx hxne
    simp only [normalizeMessage, hd, hm, he, hx]
    simp [firstTruthy_cons_none, firstTruthy_cons_some _ _ (jsTruthy_str_of_ne x hxne),
      jsToString, jsTruthy_str_of_ne x hxne]
  · intro hd hm he hx
    simp only [normalizeMessage, hd, hm, he, hx]
    by_cases hb : bodyText = "" <;>
      simp [firstTruthy, hb, jsTruthy, jsToString]
  · by_cases hb : bodyText = "" <;> simp [normalizeMessage, hb, jsTruthy, jsToString]

theorem error_message_priority_witness :
    jsField (.obj [("detail", .str "boom")]) "detail" = some (.str "boom") ∧
    normalizeMessage 418 "raw" (some (.obj [("detail", .str "boom")])) = "boom" ∧
    normalizeMessage 400 "raw"
      (some (.obj [("detail",
        .arr [.obj [("msg", .str "bad")], .obj [("msg", .str "worse")]])])) = "bad • worse" ∧
    normalizeMessage 400 "raw" (some (.obj [("error", .str "x")])) = "x" ∧
    normalizeMessage 400 "not json" none = "not json" ∧
    normalizeMessage 503 "" none = "Request failed (503)" :=
  ⟨rfl,
   (error_message_priority 418 "raw" (.obj [("detail", .str "boom")]) [] [] "boom" "" "" "").2.1
     rfl (by decide),
   by decide, by decide, by decide, by decide⟩

/-! ## C1 — refresh coalescing and the in-flight marker -/

/-- Reachable coordinator states keep `netInFlight` equal to one exactly
when the `refreshPromise` marker is set: the marker is published by the
synchronous check-and-set before the network exchange starts and cleared
by the `finally` as the exchange settles. -/
theorem coordRun_inFlight (evs : List CoordEvent) :
    (coordRun evs).netInFlight =
      (if (coordRun evs).refreshPromise.isSome then 1 else 0) := by
  have main : ∀ (l : List CoordEvent) (s : CoordState),
      s.netInFlight = (if s.refreshPromise.isSome then 1 else 0) →
      (l.foldl coordStep s).netInFlight =
        (if (l.foldl coordStep s).refreshPromise.isSome then 1 else 0) := by
    intro l
    induction l with
    | nil => intro s h; simpa using h
    | cons ev l ih =>
      intro s h
      rw [List.foldl_cons]
      apply ih
      cases ev with
      | invoke c =>
        cases hrp : s.refreshPromise with
        | some q => simp [hrp] at h; simp [coordStep, hrp, h]
        | none => simp [hrp] at h; simp [coordStep, hrp, h]
      | settle o =>
        cases hrp : s.refreshPromise with
        | some q => simp [hrp] at h; simp [coordStep, hrp, h]
        | none => simp [hrp] at h; simp [coordStep, hrp, h]
  exact main evs coordInit (by simp [coordInit])

/-- C1: over every event-loop schedule, at most one refresh network
exchange is in flight; a caller invoking `refresh()` while operation `p`
is in flight joins that same operation `p` — issuing no new network call
and leaving the in-flight count unchanged — so it resolves to `p`'s
outcome; whatever outcome the in-flight operation settles with, the
marker is cleared and the in-flight count drops to zero, that outcome
being what every caller awaiting `p` receives; and after any settlement a
subsequent invocation starts exactly one fresh network exchange. -/
theorem refresh_coalescing (evs : List CoordEvent) (c p : Nat) (o : Option String) :
    (coordRun evs).netInFlight ≤ 1 ∧
    ((coordRun evs).refreshPromise = some p →
      (coordStep (coordRun evs) (.invoke c)).netCalls = (coordRun evs).netCalls ∧
      (coordStep (coordRun evs) (.invoke c)).netInFlight = (coordRun evs).netInFlight ∧
      (c, p) ∈ (coordStep (coordRun evs) (.invoke c)).joined ∧
      (coordStep (coordRun evs) (.invoke c)).refreshPromise = some p) ∧
    (coordStep (coordRun evs) (.settle o)).refreshPromise = none ∧
    ((coordRun evs).refreshPromise = some p →
      outcomeOf (coordStep (coordRun evs) (.settle o)) p = some o) ∧
    ((coordRun evs).refreshPromise = some p →
      (coordStep (coordRun evs) (.settle o)).netInFlight = 0) ∧
    (coordStep (coordStep (coordRun evs) (.settle o)) (.invoke c)).netCalls =
      (coordRun evs).netCalls + 1 := by
  refine ⟨?_, fun hrp => ?_, ?_, fun hrp => ?_, fun hrp => ?_, ?_⟩
  · rw [coordRun_inFlight evs]
    by_cases h : (coordRun evs).refreshPromise.isSome <;> simp [h]
  · simp [coordStep, hrp]
  · cases hrp : (coordRun evs).refreshPromise <;> simp [coordStep, hrp]
  · simp [coordStep, hrp, outcomeOf]
  · have hin := coordRun_inFlight evs
    rw [hrp] at hin
    simp at hin
    simp [coordStep, hrp, hin]
  · cases hrp : (coordRun evs).refreshPromise with
    | some q => simp [coordStep, hrp]
    | none => simp [coordStep, hrp]

theorem refresh_coalescing_witness :
    (coordRun [CoordEvent.invoke 0]).refreshPromise = some 0 ∧
    (coordStep (coordRun [CoordEvent.invoke 0]) (.invoke 1)).netCalls =
      (coordRun [CoordEvent.invoke 0]).netCalls ∧
    (1, 0) ∈ (coordStep (coordRun [CoordEvent.invoke 0]) (.invoke 1)).joined ∧
    outcomeOf (coordStep (coordRun [CoordEvent.invoke 0]) (.settle (some "tok"))) 0 =
      some (some "tok") ∧
    (coordStep (coordRun [CoordEvent.invoke 0]) (.settle (some "tok"))).netInFlight = 0 := by
  have h := refresh_coalescing [CoordEvent.invoke 0] 1 0 (some "tok")
  have hrp : (coordRun [CoordEvent.invoke 0]).refreshPromise = some 0 := by decide
  exact ⟨hrp, (h.2.1 hrp).1, (h.2.1 hrp).2.2.1, h.2.2.2.1 hrp, h.2.2.2.2.1 hrp⟩

end WalletPortal
